import Mathlib

/-!
# Verification of the MLOps dashboard (src/streamlit/dashboard.py)

Shallow embedding of the single-file Streamlit dashboard. The script runs
nine fixed SQL queries against a Snowflake warehouse and renders the
results as metrics, tables and status callouts. We model:

* the rendered surface as an inductive `Widget` type (title, markdown,
  subheader, caption, metric, info/success/warning/error callouts,
  dataframe);
* each panel's query-result-to-view binding as a pure function from the
  fetched rows to the list of widgets it emits, translated branch by
  branch from the Python source;
* the whole render pass as `runDashboard`, a function from the nine query
  outcomes (each either rows or a query-execution error) to the widgets
  emitted before the first failure together with the failure, mirroring
  the script's straight-line, no-try/except structure;
* the literal SQL statements and their structural metadata (target table,
  ORDER BY column, direction, LIMIT) as `QueryInfo` values.

Numeric values (MAE, row counts) are modelled as naturals; the Python
format specs of the source (comma-grouped, zero decimal places) are
modelled by `formatThousands`.
-/

namespace Dashboard

/-- A cell of a fetched row: the warehouse columns hold either text or
numeric values. -/
inductive Cell where
  | str (s : String)
  | num (n : Int)
deriving DecidableEq, Repr

/-- A fetched row of a tabular panel: the tuple of its column values. -/
abbrev Row := List Cell

/-- A rendered widget of the Streamlit surface. -/
inductive Widget where
  | title (text : String)
  | markdown (text : String)
  | subheader (text : String)
  | caption (text : String)
  | metric (label value : String)
  | info (text : String)
  | success (text : String)
  | warning (text : String)
  | error (text : String)
  | dataframe (rows : List Row)
deriving DecidableEq, Repr

/-- Row of the production-model query
(`SELECT MODEL_VERSION, MAE, TRAINING_DATE ... WHERE STATUS = 'PRODUCTION' LIMIT 1`). -/
structure ProdModelRow where
  modelVersion : String
  mae : Nat
  trainingDate : String
deriving DecidableEq, Repr

/-- An error raised while executing a query (connectivity, permission,
malformed query), or the index error raised by `collect()[0]` on an empty
result list. The script has no try/except, so these propagate. -/
inductive QueryError where
  | sqlError (msg : String)
  | indexError
deriving DecidableEq, Repr

/-- Comma-group the (already reversed) digit list in threes, as Python's
`,` format spec does. -/
def group3 : List Char → List Char
  | a :: b :: c :: d :: rest => a :: b :: c :: ',' :: group3 (d :: rest)
  | l => l

/-- Python `f"{n:,}"` / `f"{n:,.0f}"` on a natural number: decimal digits
with thousands separators and no decimal places. -/
def formatThousands (n : Nat) : String :=
  String.mk (group3 (Nat.repr n).toList.reverse).reverse

/-- Lines 25-30: the production-model KPI pair. Non-empty result: version
and comma-formatted MAE; empty result: the fallback strings. -/
def renderProdModelPanel (rows : List ProdModelRow) : List Widget :=
  match rows with
  | r :: _ =>
      [Widget.metric "🏆 Production Model" r.modelVersion,
       Widget.metric "📊 MAE" (formatThousands r.mae)]
  | [] =>
      [Widget.metric "🏆 Production Model" "None",
       Widget.metric "📊 MAE" "N/A"]

/-- Lines 36-37: the raw-record and feature-count KPI metrics, formatted
with thousands separators. -/
def renderKpiCounts (rawCount featureCount : Nat) : List Widget :=
  [Widget.metric "📁 Raw Records" (formatThousands rawCount),
   Widget.metric "🔧 Features" (formatThousands featureCount)]

/-- The shared shape of the five tabular panels: `if len(df) > 0:
st.dataframe(df) else: st.info(placeholder)`. -/
def renderTablePanel (placeholder : String) (rows : List Row) : List Widget :=
  if rows.length > 0 then [Widget.dataframe rows] else [Widget.info placeholder]

/-- Lines 53-56: model training history panel. -/
def renderModelHistoryPanel : List Row → List Widget :=
  renderTablePanel "No models trained yet"

/-- Lines 74-77: drift metrics table panel. -/
def renderDriftTablePanel : List Row → List Widget :=
  renderTablePanel "No drift data yet"

/-- Lines 111-114: model comparison history panel. -/
def renderComparisonPanel : List Row → List Widget :=
  renderTablePanel "No comparisons logged yet"

/-- Lines 129-132: pipeline run history panel. -/
def renderPipelineRunsPanel : List Row → List Widget :=
  renderTablePanel "No pipeline runs yet"

/-- Lines 147-150: data load triggers panel. -/
def renderLoadTriggersPanel : List Row → List Widget :=
  renderTablePanel "No data load triggers yet"

/-- Lines 86-95: the latest-drift-status panel. The query projects the
single column DRIFT_STATUS, so its rows are status strings. Non-empty:
one severity-classified callout from the first row's status; empty: an
info placeholder. -/
def renderLatestDriftPanel (rows : List String) : List Widget :=
  match rows with
  | status :: _ =>
      if status = "NORMAL" ∨ status = "BASELINE" then
        [Widget.success ("✅ Drift Status: " ++ status)]
      else if status = "WARNING" then
        [Widget.warning ("⚠️ Drift Status: " ++ status)]
      else
        [Widget.error ("🚨 Drift Status: " ++ status)]
  | [] => [Widget.info "No drift data"]

/-- One SQL query of the script: its literal statement text plus the
structural facts read off the text (target table, ORDER BY column and
direction, LIMIT cap). -/
structure QueryInfo where
  sql : String
  table : String
  orderByColumn : Option String
  descending : Bool
  rowLimit : Option Nat
deriving DecidableEq, Repr

/-- Lines 19-23. -/
def prodModelQuery : QueryInfo where
  sql := "
    SELECT MODEL_VERSION, MAE, TRAINING_DATE
    FROM MLOPS_PROD_DB.MODELS.MODEL_REGISTRY
    WHERE STATUS = 'PRODUCTION' LIMIT 1
"
  table := "MLOPS_PROD_DB.MODELS.MODEL_REGISTRY"
  orderByColumn := none
  descending := false
  rowLimit := some 1

/-- Line 33. -/
def rawCountQuery : QueryInfo where
  sql := "SELECT COUNT(*) AS CNT FROM MLOPS_PROD_DB.RAW.RAW_SALES"
  table := "MLOPS_PROD_DB.RAW.RAW_SALES"
  orderByColumn := none
  descending := false
  rowLimit := none

/-- Line 34. -/
def featureCountQuery : QueryInfo where
  sql := "SELECT COUNT(*) AS CNT FROM MLOPS_PROD_DB.FEATURES.FEATURE_STORE"
  table := "MLOPS_PROD_DB.FEATURES.FEATURE_STORE"
  orderByColumn := none
  descending := false
  rowLimit := none

/-- Lines 46-51. -/
def modelHistoryQuery : QueryInfo where
  sql := "
    SELECT MODEL_VERSION, MODEL_TYPE, STATUS, TRAINING_DATE, MAE, RMSE, MAPE, NOTES
    FROM MLOPS_PROD_DB.MODELS.MODEL_REGISTRY
    ORDER BY TRAINING_DATE DESC
    LIMIT 10
"
  table := "MLOPS_PROD_DB.MODELS.MODEL_REGISTRY"
  orderByColumn := some "TRAINING_DATE"
  descending := true
  rowLimit := some 10

/-- Lines 67-72. -/
def driftMetricsQuery : QueryInfo where
  sql := "
        SELECT CHECK_DATE, METRIC_NAME, BASELINE_VALUE, CURRENT_VALUE, DRIFT_SCORE, DRIFT_STATUS
        FROM MLOPS_PROD_DB.MONITORING.DRIFT_METRICS
        ORDER BY CHECK_DATE DESC
        LIMIT 10
    "
  table := "MLOPS_PROD_DB.MONITORING.DRIFT_METRICS"
  orderByColumn := some "CHECK_DATE"
  descending := true
  rowLimit := some 10

/-- Lines 80-84. -/
def latestDriftQuery : QueryInfo where
  sql := "
        SELECT DRIFT_STATUS FROM MLOPS_PROD_DB.MONITORING.DRIFT_METRICS
        WHERE METRIC_NAME = 'Y_MEAN'
        ORDER BY CHECK_DATE DESC LIMIT 1
    "
  table := "MLOPS_PROD_DB.MONITORING.DRIFT_METRICS"
  orderByColumn := some "CHECK_DATE"
  descending := true
  rowLimit := some 1

/-- Lines 103-109. -/
def comparisonQuery : QueryInfo where
  sql := "
    SELECT COMPARISON_DATE, PRODUCTION_MODEL_VERSION, CANDIDATE_MODEL_VERSION,
           PRODUCTION_MAE, CANDIDATE_MAE, IMPROVEMENT_PERCENT, DECISION, DECISION_REASON
    FROM MLOPS_PROD_DB.MODELS.MODEL_COMPARISON_LOG
    ORDER BY COMPARISON_DATE DESC
    LIMIT 10
"
  table := "MLOPS_PROD_DB.MODELS.MODEL_COMPARISON_LOG"
  orderByColumn := some "COMPARISON_DATE"
  descending := true
  rowLimit := some 10

/-- Lines 122-127. -/
def pipelineRunsQuery : QueryInfo where
  sql := "
    SELECT RUN_TIME, PHASE, STATUS, RECORDS_PROCESSED
    FROM MLOPS_PROD_DB.MONITORING.PIPELINE_RUNS
    ORDER BY RUN_TIME DESC
    LIMIT 10
"
  table := "MLOPS_PROD_DB.MONITORING.PIPELINE_RUNS"
  orderByColumn := some "RUN_TIME"
  descending := true
  rowLimit := some 10

/-- Lines 140-145. -/
def loadTriggersQuery : QueryInfo where
  sql := "
    SELECT RUN_TIME, NEW_ROWS, TRIGGER_TYPE
    FROM MLOPS_PROD_DB.MONITORING.PIPELINE_RUN_LOG
    ORDER BY RUN_TIME DESC
    LIMIT 10
"
  table := "MLOPS_PROD_DB.MONITORING.PIPELINE_RUN_LOG"
  orderByColumn := some "RUN_TIME"
  descending := true
  rowLimit := some 10

/-- The queries the script issues, in execution order. -/
def dashboardQueries : List QueryInfo :=
  [prodModelQuery, rawCountQuery, featureCountQuery, modelHistoryQuery,
   driftMetricsQuery, latestDriftQuery, comparisonQuery, pipelineRunsQuery,
   loadTriggersQuery]

/-- Drop leading SQL whitespace from a character list. -/
def dropLeadingWs : List Char → List Char
  | [] => []
  | c :: cs => if c = ' ' ∨ c = '\n' ∨ c = '\t' then dropLeadingWs cs else c :: cs

/-- A statement is a plain SELECT when its first keyword is SELECT. -/
def isSelectStatement (s : String) : Bool :=
  (dropLeadingWs s.toList).take 7 = "SELECT ".toList

/-- A statement carries a bind parameter when it contains a `?`
placeholder; the script passes none. -/
def hasBindParameter (s : String) : Bool :=
  s.toList.contains '?'

/-- The timestamp columns of the warehouse tables the queries sort on. -/
def timestampColumns : List String :=
  ["TRAINING_DATE", "CHECK_DATE", "COMPARISON_DATE", "RUN_TIME"]

/-- A query is ordered by a timestamp column descending and capped at 1 or
10 rows. -/
def orderedByTimestampDescCapped (q : QueryInfo) : Bool :=
  (match q.orderByColumn with
   | some c => timestampColumns.contains c
   | none => false)
  && q.descending
  && (q.rowLimit = some 1 || q.rowLimit = some 10)

/-- The outcomes of the nine queries of one render pass: each is either
the fetched rows or a query-execution error. The warehouse is external,
so these are the pass's inputs. -/
structure QueryResults where
  prodModel : Except QueryError (List ProdModelRow)
  rawCount : Except QueryError (List Nat)
  featureCount : Except QueryError (List Nat)
  modelHistory : Except QueryError (List Row)
  driftMetrics : Except QueryError (List Row)
  latestDrift : Except QueryError (List String)
  comparisons : Except QueryError (List Row)
  pipelineRuns : Except QueryError (List Row)
  loadTriggers : Except QueryError (List Row)

/-- `collect()[0]` on a result list: the first row, or an index error on
an empty list (lines 33-34 index unconditionally). -/
def firstRow {α : Type} : List α → Except QueryError α
  | [] => Except.error QueryError.indexError
  | a :: _ => Except.ok a

/-- The result of one render pass: the widgets written to the page before
the first uncaught failure, and that failure when one occurred. -/
structure RenderOutcome where
  widgets : List Widget
  failure : Option QueryError
deriving DecidableEq, Repr

/-- Lines 10-11: the page contents before the first query runs. -/
def stage0 : List Widget :=
  [Widget.title "🚀 MLOps Production Dashboard", Widget.markdown "---"]

/-- Page contents after the production-model KPI pair (line 30), before
the count queries at lines 33-34. -/
def stage1 (p : List ProdModelRow) : List Widget :=
  stage0 ++ renderProdModelPanel p

/-- Page contents after the count metrics, the divider and the model
history subheader (line 44), before the query at line 46. -/
def stage2 (p : List ProdModelRow) (c d : Nat) : List Widget :=
  stage1 p ++ renderKpiCounts c d
    ++ [Widget.markdown "---", Widget.subheader "📈 Model Training History"]

/-- Page contents after the model history panel, the divider and the
drift subheader (line 62), before the query at line 67. -/
def stage3 (p : List ProdModelRow) (c d : Nat) (m : List Row) : List Widget :=
  stage2 p c d ++ renderModelHistoryPanel m
    ++ [Widget.markdown "---", Widget.subheader "🔍 Data Drift Monitoring"]

/-- Page contents after the drift table panel (line 77), before the
latest-drift query at line 80. -/
def stage4 (p : List ProdModelRow) (c d : Nat) (m dr : List Row) : List Widget :=
  stage3 p c d m ++ renderDriftTablePanel dr

/-- Page contents after the latest-drift callout, the divider and the
comparison subheader (line 101), before the query at line 103. -/
def stage5 (p : List ProdModelRow) (c d : Nat) (m dr : List Row)
    (l : List String) : List Widget :=
  stage4 p c d m dr ++ renderLatestDriftPanel l
    ++ [Widget.markdown "---", Widget.subheader "⚖️ Model Comparison History"]

/-- Page contents after the comparison panel, the divider and the
pipeline-runs subheader (line 120), before the query at line 122. -/
def stage6 (p : List ProdModelRow) (c d : Nat) (m dr : List Row)
    (l : List String) (cm : List Row) : List Widget :=
  stage5 p c d m dr l ++ renderComparisonPanel cm
    ++ [Widget.markdown "---", Widget.subheader "🔄 Pipeline Run History"]

/-- Page contents after the pipeline-runs panel, the divider and the
load-triggers subheader (line 138), before the query at line 140. -/
def stage7 (p : List ProdModelRow) (c d : Nat) (m dr : List Row)
    (l : List String) (cm r : List Row) : List Widget :=
  stage6 p c d m dr l cm ++ renderPipelineRunsPanel r
    ++ [Widget.markdown "---", Widget.subheader "📥 Data Load Triggers"]

/-- The complete page: all panels plus the closing divider and caption
(lines 152-153). -/
def stage8 (p : List ProdModelRow) (c d : Nat) (m dr : List Row)
    (l : List String) (cm r lg : List Row) : List Widget :=
  stage7 p c d m dr l cm r
    ++ renderLoadTriggersPanel lg
    ++ [Widget.markdown "---",
        Widget.caption "MLOps Production Pipeline Dashboard | Auto-refreshes with new data"]

/-- One render pass of the script, line by line: widgets accumulate in
source order, queries run at their source positions, and the first error
ends the pass (the script has no try/except, so an exception halts it;
widgets already written stay on the page). -/
def runDashboard (db : QueryResults) : RenderOutcome :=
  match db.prodModel with
  | Except.error e => ⟨stage0, some e⟩
  | Except.ok p =>
  match db.rawCount with
  | Except.error e => ⟨stage1 p, some e⟩
  | Except.ok rawRows =>
  match firstRow rawRows with
  | Except.error e => ⟨stage1 p, some e⟩
  | Except.ok c =>
  match db.featureCount with
  | Except.error e => ⟨stage1 p, some e⟩
  | Except.ok featRows =>
  match firstRow featRows with
  | Except.error e => ⟨stage1 p, some e⟩
  | Except.ok d =>
  match db.modelHistory with
  | Except.error e => ⟨stage2 p c d, some e⟩
  | Except.ok m =>
  match db.driftMetrics with
  | Except.error e => ⟨stage3 p c d m, some e⟩
  | Except.ok dr =>
  match db.latestDrift with
  | Except.error e => ⟨stage4 p c d m dr, some e⟩
  | Except.ok l =>
  match db.comparisons with
  | Except.error e => ⟨stage5 p c d m dr l, some e⟩
  | Except.ok cm =>
  match db.pipelineRuns with
  | Except.error e => ⟨stage6 p c d m dr l cm, some e⟩
  | Except.ok r =>
  match db.loadTriggers with
  | Except.error e => ⟨stage7 p c d m dr l cm r, some e⟩
  | Except.ok lg =>
  ⟨stage8 p c d m dr l cm r lg, none⟩

/-- Some query of the pass failed (counting the index error on an empty
COUNT result, which also raises). -/
def anyQueryFailed (db : QueryResults) : Bool :=
  !db.prodModel.isOk || !db.rawCount.isOk || !db.featureCount.isOk
  || !db.modelHistory.isOk || !db.driftMetrics.isOk || !db.latestDrift.isOk
  || !db.comparisons.isOk || !db.pipelineRuns.isOk || !db.loadTriggers.isOk

/-- The widget is a labeled metric. -/
def isMetricWidget : Widget → Bool
  | Widget.metric _ _ => true
  | _ => false

/-- The widget is an informational placeholder. -/
def isInfoWidget : Widget → Bool
  | Widget.info _ => true
  | _ => false

/-- A render pass where all nine queries succeed. -/
def dbAllOk : QueryResults where
  prodModel := Except.ok [⟨"v3", 1234567, "2024-01-01"⟩]
  rawCount := Except.ok [2500000]
  featureCount := Except.ok [48000]
  modelHistory := Except.ok [[Cell.str "v3", Cell.num 1234567]]
  driftMetrics := Except.ok [[Cell.str "Y_MEAN", Cell.num 3]]
  latestDrift := Except.ok ["WARNING"]
  comparisons := Except.ok []
  pipelineRuns := Except.ok []
  loadTriggers := Except.ok []

/-- A render pass where the drift-metrics query raises. -/
def dbDriftError : QueryResults :=
  { dbAllOk with driftMetrics := Except.error (QueryError.sqlError "permission denied") }

/-! ## Helper lemmas: which widget shapes each panel can emit -/

theorem subheader_notMem_prodPanel (s : String) (p : List ProdModelRow) :
    Widget.subheader s ∉ renderProdModelPanel p := by
  cases p <;> simp [renderProdModelPanel]

theorem subheader_notMem_kpi (s : String) (a b : Nat) :
    Widget.subheader s ∉ renderKpiCounts a b := by
  simp [renderKpiCounts]

theorem subheader_notMem_tablePanel (s ph : String) (rows : List Row) :
    Widget.subheader s ∉ renderTablePanel ph rows := by
  unfold renderTablePanel
  split <;> simp

theorem subheader_notMem_latestPanel (s : String) (rows : List String) :
    Widget.subheader s ∉ renderLatestDriftPanel rows := by
  unfold renderLatestDriftPanel
  cases rows with
  | nil => simp
  | cons a t =>
    by_cases h1 : a = "NORMAL" ∨ a = "BASELINE" <;> by_cases h2 : a = "WARNING" <;>
      simp [h1, h2]

theorem caption_notMem_prodPanel (s : String) (p : List ProdModelRow) :
    Widget.caption s ∉ renderProdModelPanel p := by
  cases p <;> simp [renderProdModelPanel]

theorem caption_notMem_kpi (s : String) (a b : Nat) :
    Widget.caption s ∉ renderKpiCounts a b := by
  simp [renderKpiCounts]

theorem caption_notMem_tablePanel (s ph : String) (rows : List Row) :
    Widget.caption s ∉ renderTablePanel ph rows := by
  unfold renderTablePanel
  split <;> simp

theorem caption_notMem_latestPanel (s : String) (rows : List String) :
    Widget.caption s ∉ renderLatestDriftPanel rows := by
  unfold renderLatestDriftPanel
  cases rows with
  | nil => simp
  | cons a t =>
    by_cases h1 : a = "NORMAL" ∨ a = "BASELINE" <;> by_cases h2 : a = "WARNING" <;>
      simp [h1, h2]

/-- Exhaustive description of one render pass: the pass stops at the
first failing query, leaving on the page exactly the widgets written
before that query, or completes with the full page and no failure. -/
theorem runDashboard_enum (db : QueryResults) :
    (∃ e, db.prodModel = Except.error e ∧ runDashboard db = ⟨stage0, some e⟩) ∨
    (∃ p e, db.prodModel = Except.ok p ∧
      (db.rawCount.isOk = false ∨ db.rawCount = Except.ok ([] : List Nat) ∨
       db.featureCount.isOk = false ∨ db.featureCount = Except.ok ([] : List Nat)) ∧
      runDashboard db = ⟨stage1 p, some e⟩) ∨
    (∃ p c cs d ds e, db.prodModel = Except.ok p ∧ db.rawCount = Except.ok (c :: cs) ∧
      db.featureCount = Except.ok (d :: ds) ∧ db.modelHistory = Except.error e ∧
      runDashboard db = ⟨stage2 p c d, some e⟩) ∨
    (∃ p c cs d ds m e, db.prodModel = Except.ok p ∧ db.rawCount = Except.ok (c :: cs) ∧
      db.featureCount = Except.ok (d :: ds) ∧ db.modelHistory = Except.ok m ∧
      db.driftMetrics = Except.error e ∧
      runDashboard db = ⟨stage3 p c d m, some e⟩) ∨
    (∃ p c cs d ds m dr e, db.prodModel = Except.ok p ∧ db.rawCount = Except.ok (c :: cs) ∧
      db.featureCount = Except.ok (d :: ds) ∧ db.modelHistory = Except.ok m ∧
      db.driftMetrics = Except.ok dr ∧ db.latestDrift = Except.error e ∧
      runDashboard db = ⟨stage4 p c d m dr, some e⟩) ∨
    (∃ p c cs d ds m dr l e, db.prodModel = Except.ok p ∧ db.rawCount = Except.ok (c :: cs) ∧
      db.featureCount = Except.ok (d :: ds) ∧ db.modelHistory = Except.ok m ∧
      db.driftMetrics = Except.ok dr ∧ db.latestDrift = Except.ok l ∧
      db.comparisons = Except.error e ∧
      runDashboard db = ⟨stage5 p c d m dr l, some e⟩) ∨
    (∃ p c cs d ds m dr l cm e, db.prodModel = Except.ok p ∧ db.rawCount = Except.ok (c :: cs) ∧
      db.featureCount = Except.ok (d :: ds) ∧ db.modelHistory = Except.ok m ∧
      db.driftMetrics = Except.ok dr ∧ db.latestDrift = Except.ok l ∧
      db.comparisons = Except.ok cm ∧ db.pipelineRuns = Except.error e ∧
      runDashboard db = ⟨stage6 p c d m dr l cm, some e⟩) ∨
    (∃ p c cs d ds m dr l cm r e, db.prodModel = Except.ok p ∧ db.rawCount = Except.ok (c :: cs) ∧
      db.featureCount = Except.ok (d :: ds) ∧ db.modelHistory = Except.ok m ∧
      db.driftMetrics = Except.ok dr ∧ db.latestDrift = Except.ok l ∧
      db.comparisons = Except.ok cm ∧ db.pipelineRuns = Except.ok r ∧
      db.loadTriggers = Except.error e ∧
      runDashboard db = ⟨stage7 p c d m dr l cm r, some e⟩) ∨
    (∃ p c cs d ds m dr l cm r lg, db.prodModel = Except.ok p ∧ db.rawCount = Except.ok (c :: cs) ∧
      db.featureCount = Except.ok (d :: ds) ∧ db.modelHistory = Except.ok m ∧
      db.driftMetrics = Except.ok dr ∧ db.latestDrift = Except.ok l ∧
      db.comparisons = Except.ok cm ∧ db.pipelineRuns = Except.ok r ∧
      db.loadTriggers = Except.ok lg ∧
      runDashboard db = ⟨stage8 p c d m dr l cm r lg, none⟩) := by
  cases h1 : db.prodModel with
  | error e => exact Or.inl ⟨e, rfl, by simp [runDashboard, h1]⟩
  | ok p =>
    cases h2 : db.rawCount with
    | error e =>
      exact Or.inr (Or.inl ⟨p, e, rfl, Or.inl rfl, by simp [runDashboard, h1, h2]⟩)
    | ok v2 =>
      cases v2 with
      | nil =>
        exact Or.inr (Or.inl ⟨p, QueryError.indexError, rfl, Or.inr (Or.inl rfl),
          by simp [runDashboard, h1, h2, firstRow]⟩)
      | cons c cs =>
        cases h3 : db.featureCount with
        | error e =>
          exact Or.inr (Or.inl ⟨p, e, rfl,
            Or.inr (Or.inr (Or.inl rfl)),
            by simp [runDashboard, h1, h2, h3, firstRow]⟩)
        | ok v3 =>
          cases v3 with
          | nil =>
            exact Or.inr (Or.inl ⟨p, QueryError.indexError, rfl,
              Or.inr (Or.inr (Or.inr rfl)),
              by simp [runDashboard, h1, h2, h3, firstRow]⟩)
          | cons d ds =>
            cases h4 : db.modelHistory with
            | error e =>
              exact Or.inr (Or.inr (Or.inl ⟨p, c, cs, d, ds, e, rfl, rfl, rfl, rfl,
                by simp [runDashboard, h1, h2, h3, h4, firstRow]⟩))
            | ok m =>
              cases h5 : db.driftMetrics with
              | error e =>
                exact Or.inr (Or.inr (Or.inr (Or.inl ⟨p, c, cs, d, ds, m, e,
                  rfl, rfl, rfl, rfl, rfl,
                  by simp [runDashboard, h1, h2, h3, h4, h5, firstRow]⟩)))
              | ok dr =>
                cases h6 : db.latestDrift with
                | error e =>
                  exact Or.inr (Or.inr (Or.inr (Or.inr (Or.inl ⟨p, c, cs, d, ds, m, dr, e,
                    rfl, rfl, rfl, rfl, rfl, rfl,
                    by simp [runDashboard, h1, h2, h3, h4, h5, h6, firstRow]⟩))))
                | ok l =>
                  cases h7 : db.comparisons with
                  | error e =>
                    exact Or.inr (Or.inr (Or.inr (Or.inr (Or.inr (Or.inl
                      ⟨p, c, cs, d, ds, m, dr, l, e, rfl, rfl, rfl, rfl, rfl, rfl, rfl,
                      by simp [runDashboard, h1, h2, h3, h4, h5, h6, h7, firstRow]⟩)))))
                  | ok cm =>
                    cases h8 : db.pipelineRuns with
                    | error e =>
                      exact Or.inr (Or.inr (Or.inr (Or.inr (Or.inr (Or.inr (Or.inl
                        ⟨p, c, cs, d, ds, m, dr, l, cm, e,
                        rfl, rfl, rfl, rfl, rfl, rfl, rfl, rfl,
                        by simp [runDashboard, h1, h2, h3, h4, h5, h6, h7, h8, firstRow]⟩))))))
                    | ok r =>
                      cases h9 : db.loadTriggers with
                      | error e =>
                        exact Or.inr (Or.inr (Or.inr (Or.inr (Or.inr (Or.inr (Or.inr (Or.inl
                          ⟨p, c, cs, d, ds, m, dr, l, cm, r, e,
                          rfl, rfl, rfl, rfl, rfl, rfl, rfl, rfl, rfl,
                          by simp [runDashboard, h1, h2, h3, h4, h5, h6, h7, h8, h9, firstRow]⟩)))))))
                      | ok lg =>
                        exact Or.inr (Or.inr (Or.inr (Or.inr (Or.inr (Or.inr (Or.inr (Or.inr
                          ⟨p, c, cs, d, ds, m, dr, l, cm, r, lg,
                          rfl, rfl, rfl, rfl, rfl, rfl, rfl, rfl, rfl,
                          by simp [runDashboard, h1, h2, h3, h4, h5, h6, h7, h8, h9, firstRow]⟩)))))))

/-! ## Claims -/

/-- C1: when the drift-status query returns a row, the latest-drift panel
maps the status string to severity: NORMAL or BASELINE gives a
success-severity callout, WARNING a caution-severity callout, and CRITICAL
or any other string an error-severity callout; exactly one callout is
produced. -/
theorem c1_drift_status_mapping (s : String) (rest : List String) :
    (renderLatestDriftPanel (s :: rest)).length = 1 ∧
    ((s = "NORMAL" ∨ s = "BASELINE") →
      renderLatestDriftPanel (s :: rest) = [Widget.success ("✅ Drift Status: " ++ s)]) ∧
    (s = "WARNING" →
      renderLatestDriftPanel (s :: rest) = [Widget.warning ("⚠️ Drift Status: " ++ s)]) ∧
    (¬(s = "NORMAL" ∨ s = "BASELINE") → ¬s = "WARNING" →
      renderLatestDriftPanel (s :: rest) = [Widget.error ("🚨 Drift Status: " ++ s)]) := by
  unfold renderLatestDriftPanel
  by_cases h1 : s = "NORMAL" ∨ s = "BASELINE" <;> by_cases h2 : s = "WARNING" <;>
    simp [h1, h2]

/-- C1 witness: the mapping evaluated at the unrecognized status
CRITICAL yields the error-severity callout. -/
theorem c1_drift_status_mapping_witness :
    renderLatestDriftPanel ["CRITICAL"] =
      [Widget.error ("🚨 Drift Status: " ++ "CRITICAL")] :=
  (c1_drift_status_mapping "CRITICAL" []).2.2.2 (by decide) (by decide)

/-- C2 counterexample: the script issues nine queries, not seven, and the
production-model and two COUNT queries are not ordered by a timestamp
column descending and capped at 1 or 10 rows. -/
theorem c2_counterexample :
    dashboardQueries.length = 9 ∧
    orderedByTimestampDescCapped prodModelQuery = false ∧
    orderedByTimestampDescCapped rawCountQuery = false ∧
    orderedByTimestampDescCapped featureCountQuery = false := by
  decide

/-- C2 amended: the script issues nine fixed, read-only, parameterless
SELECT statements against seven distinct warehouse tables; the six
history/latest queries are ordered by a timestamp column descending and
capped at 1 or 10 rows, the production-model query is capped at 1 row but
has no ORDER BY, and the two COUNT queries have neither ORDER BY nor
LIMIT. -/
theorem c2_amended_queries :
    dashboardQueries.length = 9 ∧
    (dashboardQueries.map QueryInfo.table).dedup.length = 7 ∧
    dashboardQueries.all (fun q => isSelectStatement q.sql) = true ∧
    dashboardQueries.all (fun q => !hasBindParameter q.sql) = true ∧
    ([modelHistoryQuery, driftMetricsQuery, latestDriftQuery, comparisonQuery,
      pipelineRunsQuery, loadTriggersQuery].all orderedByTimestampDescCapped) = true ∧
    prodModelQuery.orderByColumn = none ∧ prodModelQuery.rowLimit = some 1 ∧
    rawCountQuery.orderByColumn = none ∧ rawCountQuery.rowLimit = none ∧
    featureCountQuery.orderByColumn = none ∧ featureCountQuery.rowLimit = none := by
  decide

/-- C3 counterexample: the production-model panel, on a zero-row result,
emits metric widgets (the fallback strings) and no informational
placeholder, so the all-panels claim fails on it. -/
theorem c3_counterexample :
    renderProdModelPanel [] =
      [Widget.metric "🏆 Production Model" "None", Widget.metric "📊 MAE" "N/A"] ∧
    (renderProdModelPanel []).any isMetricWidget = true ∧
    (renderProdModelPanel []).any isInfoWidget = false := by
  decide

/-- C3 amended: each of the six panels with an informational empty branch
(model history, drift table, latest drift status, comparison history,
pipeline runs, data load triggers) emits exactly its panel-specific
placeholder on a zero-row result, with no table or metric widget; the
production-model KPI panel instead emits the fallback metrics None and
N/A. -/
theorem c3_amended_empty_placeholders :
    renderModelHistoryPanel [] = [Widget.info "No models trained yet"] ∧
    renderDriftTablePanel [] = [Widget.info "No drift data yet"] ∧
    renderLatestDriftPanel [] = [Widget.info "No drift data"] ∧
    renderComparisonPanel [] = [Widget.info "No comparisons logged yet"] ∧
    renderPipelineRunsPanel [] = [Widget.info "No pipeline runs yet"] ∧
    renderLoadTriggersPanel [] = [Widget.info "No data load triggers yet"] ∧
    renderProdModelPanel [] =
      [Widget.metric "🏆 Production Model" "None", Widget.metric "📊 MAE" "N/A"] := by
  decide

/-- C4: every tabular panel, on a result of N rows with 1 ≤ N ≤ 10, emits
exactly the fetched row list as one dataframe widget: N rows, source
order, untransformed. -/
theorem c4_tabular_rows (rows : List Row) (h1 : 1 ≤ rows.length)
    (h10 : rows.length ≤ 10) :
    renderModelHistoryPanel rows = [Widget.dataframe rows] ∧
    renderDriftTablePanel rows = [Widget.dataframe rows] ∧
    renderComparisonPanel rows = [Widget.dataframe rows] ∧
    renderPipelineRunsPanel rows = [Widget.dataframe rows] ∧
    renderLoadTriggersPanel rows = [Widget.dataframe rows] := by
  have h : rows.length > 0 := h1
  simp [renderModelHistoryPanel, renderDriftTablePanel, renderComparisonPanel,
        renderPipelineRunsPanel, renderLoadTriggersPanel, renderTablePanel, h]

/-- C4 witness: a one-row result renders as that one row. -/
theorem c4_tabular_rows_witness :
    1 ≤ ([[Cell.num 1]] : List Row).length ∧
    ([[Cell.num 1]] : List Row).length ≤ 10 ∧
    renderModelHistoryPanel [[Cell.num 1]] = [Widget.dataframe [[Cell.num 1]]] :=
  ⟨by decide, by decide, (c4_tabular_rows [[Cell.num 1]] (by decide) (by decide)).1⟩

/-- C5: on a zero-row production-model result, the Production Model metric
shows None and the MAE metric shows N/A. -/
theorem c5_prod_model_empty :
    renderProdModelPanel [] =
      [Widget.metric "🏆 Production Model" "None", Widget.metric "📊 MAE" "N/A"] := rfl

/-- C6: KPI values format with thousands separators and zero decimal
places: MAE 1234567 renders as 1,234,567, raw count 2500000 as 2,500,000
and feature count 48000 as 48,000. -/
theorem c6_numeric_formatting :
    renderProdModelPanel [⟨"v3", 1234567, "2024-01-01"⟩] =
      [Widget.metric "🏆 Production Model" "v3", Widget.metric "📊 MAE" "1,234,567"] ∧
    renderKpiCounts 2500000 48000 =
      [Widget.metric "📁 Raw Records" "2,500,000", Widget.metric "🔧 Features" "48,000"] := by
  decide

/-- C7: a WARNING drift status produces a caution-severity callout whose
text contains the literal word WARNING. -/
theorem c7_warning_callout :
    renderLatestDriftPanel ["WARNING"] = [Widget.warning "⚠️ Drift Status: WARNING"] ∧
    (∃ pre post, "⚠️ Drift Status: WARNING" = pre ++ "WARNING" ++ post) :=
  ⟨by decide, ⟨"⚠️ Drift Status: ", "", by decide⟩⟩

/-- C8: no query execution failure is caught anywhere: whenever any query
of the pass fails, the pass ends with a reported failure, and for each
query, an error raised while executing it keeps every later panel off the
page (the next panel's subheader, or the closing caption, never renders). -/
theorem c8_failure_propagation (db : QueryResults) :
    (anyQueryFailed db = true → (runDashboard db).failure.isSome = true) ∧
    (∀ e, db.prodModel = Except.error e →
      Widget.subheader "📈 Model Training History" ∉ (runDashboard db).widgets) ∧
    (∀ e, db.rawCount = Except.error e →
      Widget.subheader "📈 Model Training History" ∉ (runDashboard db).widgets) ∧
    (∀ e, db.featureCount = Except.error e →
      Widget.subheader "📈 Model Training History" ∉ (runDashboard db).widgets) ∧
    (∀ e, db.modelHistory = Except.error e →
      Widget.subheader "🔍 Data Drift Monitoring" ∉ (runDashboard db).widgets) ∧
    (∀ e, db.driftMetrics = Except.error e →
      Widget.subheader "⚖️ Model Comparison History" ∉ (runDashboard db).widgets) ∧
    (∀ e, db.latestDrift = Except.error e →
      Widget.subheader "⚖️ Model Comparison History" ∉ (runDashboard db).widgets) ∧
    (∀ e, db.comparisons = Except.error e →
      Widget.subheader "🔄 Pipeline Run History" ∉ (runDashboard db).widgets) ∧
    (∀ e, db.pipelineRuns = Except.error e →
      Widget.subheader "📥 Data Load Triggers" ∉ (runDashboard db).widgets) ∧
    (∀ e, db.loadTriggers = Except.error e →
      Widget.caption "MLOps Production Pipeline Dashboard | Auto-refreshes with new data"
        ∉ (runDashboard db).widgets) := by
  rcases runDashboard_enum db with
      ⟨e0, hq1, hout⟩ |
      ⟨p, e0, hq1, hcause, hout⟩ |
      ⟨p, c, cs, d, ds, e0, hq1, hq2, hq3, hq4, hout⟩ |
      ⟨p, c, cs, d, ds, m, e0, hq1, hq2, hq3, hq4, hq5, hout⟩ |
      ⟨p, c, cs, d, ds, m, dr, e0, hq1, hq2, hq3, hq4, hq5, hq6, hout⟩ |
      ⟨p, c, cs, d, ds, m, dr, l, e0, hq1, hq2, hq3, hq4, hq5, hq6, hq7, hout⟩ |
      ⟨p, c, cs, d, ds, m, dr, l, cm, e0, hq1, hq2, hq3, hq4, hq5, hq6, hq7, hq8, hout⟩ |
      ⟨p, c, cs, d, ds, m, dr, l, cm, r, e0, hq1, hq2, hq3, hq4, hq5, hq6, hq7, hq8, hq9, hout⟩ |
      ⟨p, c, cs, d, ds, m, dr, l, cm, r, lg, hq1, hq2, hq3, hq4, hq5, hq6, hq7, hq8, hq9, hout⟩ <;>
    refine ⟨?_, ?_, ?_, ?_, ?_, ?_, ?_, ?_, ?_, ?_⟩ <;>
    intros <;>
    simp_all [stage0, stage1, stage2, stage3, stage4, stage5, stage6, stage7, stage8,
      anyQueryFailed, Except.isOk, Except.toBool,
      renderModelHistoryPanel, renderDriftTablePanel, renderComparisonPanel,
      renderPipelineRunsPanel, renderLoadTriggersPanel,
      subheader_notMem_prodPanel, subheader_notMem_kpi, subheader_notMem_tablePanel,
      subheader_notMem_latestPanel, caption_notMem_prodPanel, caption_notMem_kpi,
      caption_notMem_tablePanel, caption_notMem_latestPanel]

/-- C8 witness: a pass whose drift-metrics query raises reports the
failure and never renders the comparison panel's subheader. -/
theorem c8_failure_propagation_witness :
    anyQueryFailed dbDriftError = true ∧
    (runDashboard dbDriftError).failure.isSome = true ∧
    Widget.subheader "⚖️ Model Comparison History" ∉ (runDashboard dbDriftError).widgets :=
  ⟨by decide, (c8_failure_propagation dbDriftError).1 (by decide),
   (c8_failure_propagation dbDriftError).2.2.2.2.2.1
     (QueryError.sqlError "permission denied") rfl⟩

/-- C9: the program never mutates warehouse state: all nine SQL statements
are plain SELECTs with no bind parameter, and fetched row sets are bound
to the rendered view untouched: a non-empty tabular result is emitted as
exactly the fetched list, and the model-history rows reach the page as
fetched on a failure-free pass. -/
theorem c9_read_only (db : QueryResults) :
    dashboardQueries.all
      (fun q => isSelectStatement q.sql && !hasBindParameter q.sql) = true ∧
    (∀ (rows : List Row) (ph : String), rows ≠ [] →
      renderTablePanel ph rows = [Widget.dataframe rows]) ∧
    (∀ m, db.modelHistory = Except.ok m → m ≠ [] →
      (runDashboard db).failure = none →
      Widget.dataframe m ∈ (runDashboard db).widgets) := by
  refine ⟨by decide, ?_, ?_⟩
  · intro rows ph h
    have hl : rows.length > 0 := List.length_pos.mpr h
    simp [renderTablePanel, hl]
  · intro m hm hne hfail
    have hl : m.length > 0 := List.length_pos.mpr hne
    rcases runDashboard_enum db with
        ⟨e0, hq1, hout⟩ |
        ⟨p, e0, hq1, hcause, hout⟩ |
        ⟨p, c, cs, d, ds, e0, hq1, hq2, hq3, hq4, hout⟩ |
        ⟨p, c, cs, d, ds, m2, e0, hq1, hq2, hq3, hq4, hq5, hout⟩ |
        ⟨p, c, cs, d, ds, m2, dr, e0, hq1, hq2, hq3, hq4, hq5, hq6, hout⟩ |
        ⟨p, c, cs, d, ds, m2, dr, l, e0, hq1, hq2, hq3, hq4, hq5, hq6, hq7, hout⟩ |
        ⟨p, c, cs, d, ds, m2, dr, l, cm, e0, hq1, hq2, hq3, hq4, hq5, hq6, hq7, hq8, hout⟩ |
        ⟨p, c, cs, d, ds, m2, dr, l, cm, r, e0, hq1, hq2, hq3, hq4, hq5, hq6, hq7, hq8, hq9, hout⟩ |
        ⟨p, c, cs, d, ds, m2, dr, l, cm, r, lg, hq1, hq2, hq3, hq4, hq5, hq6, hq7, hq8, hq9, hout⟩ <;>
      simp_all [stage0, stage1, stage2, stage3, stage4, stage5, stage6, stage7, stage8,
        renderModelHistoryPanel, renderTablePanel]

/-- C9 witness: on the all-success pass, the fetched model-history rows
appear on the page exactly as fetched. -/
theorem c9_read_only_witness :
    dbAllOk.modelHistory = Except.ok [[Cell.str "v3", Cell.num 1234567]] ∧
    Widget.dataframe [[Cell.str "v3", Cell.num 1234567]] ∈ (runDashboard dbAllOk).widgets :=
  ⟨rfl, (c9_read_only dbAllOk).2.2 [[Cell.str "v3", Cell.num 1234567]] rfl
    (by decide) (by decide)⟩

/-- C10: the raw-records and features KPI metrics index the first row of
their COUNT(*) results unconditionally: an empty count result ends the
pass with the index error (no placeholder branch exists), and whenever
both count queries return at least one row the two numeric metrics are on
the page. -/
theorem c10_counts_unconditional (db : QueryResults) (p : List ProdModelRow)
    (hp : db.prodModel = Except.ok p) :
    (db.rawCount = Except.ok ([] : List Nat) →
      (runDashboard db).failure = some QueryError.indexError) ∧
    (∀ c cs, db.rawCount = Except.ok (c :: cs) →
      ((db.featureCount = Except.ok ([] : List Nat) →
        (runDashboard db).failure = some QueryError.indexError) ∧
       (∀ d ds, db.featureCount = Except.ok (d :: ds) →
        Widget.metric "📁 Raw Records" (formatThousands c) ∈ (runDashboard db).widgets ∧
        Widget.metric "🔧 Features" (formatThousands d) ∈ (runDashboard db).widgets))) := by
  refine ⟨?_, ?_⟩
  · intro h
    simp [runDashboard, hp, h, firstRow]
  · intro c cs hc
    refine ⟨?_, ?_⟩
    · intro hf
      simp [runDashboard, hp, hc, hf, firstRow]
    · intro d ds hd
      rcases runDashboard_enum db with
          ⟨e0, hq1, hout⟩ |
          ⟨p2, e0, hq1, hcause, hout⟩ |
          ⟨p2, c2, cs2, d2, ds2, e0, hq1, hq2, hq3, hq4, hout⟩ |
          ⟨p2, c2, cs2, d2, ds2, m, e0, hq1, hq2, hq3, hq4, hq5, hout⟩ |
          ⟨p2, c2, cs2, d2, ds2, m, dr, e0, hq1, hq2, hq3, hq4, hq5, hq6, hout⟩ |
          ⟨p2, c2, cs2, d2, ds2, m, dr, l, e0, hq1, hq2, hq3, hq4, hq5, hq6, hq7, hout⟩ |
          ⟨p2, c2, cs2, d2, ds2, m, dr, l, cm, e0, hq1, hq2, hq3, hq4, hq5, hq6, hq7, hq8, hout⟩ |
          ⟨p2, c2, cs2, d2, ds2, m, dr, l, cm, r, e0, hq1, hq2, hq3, hq4, hq5, hq6, hq7, hq8, hq9, hout⟩ |
          ⟨p2, c2, cs2, d2, ds2, m, dr, l, cm, r, lg, hq1, hq2, hq3, hq4, hq5, hq6, hq7, hq8, hq9, hout⟩ <;>
        refine ⟨?_, ?_⟩ <;>
        simp_all [stage0, stage1, stage2, stage3, stage4, stage5, stage6, stage7, stage8,
          renderKpiCounts, Except.isOk, Except.toBool]

/-- C10 witness: with non-empty count results 2500000 and 48000, the
raw-records metric is on the page. -/
theorem c10_counts_unconditional_witness :
    dbAllOk.prodModel = Except.ok [⟨"v3", 1234567, "2024-01-01"⟩] ∧
    dbAllOk.rawCount = Except.ok [2500000] ∧
    dbAllOk.featureCount = Except.ok [48000] ∧
    Widget.metric "📁 Raw Records" (formatThousands 2500000) ∈ (runDashboard dbAllOk).widgets :=
  ⟨rfl, rfl, rfl,
    (((c10_counts_unconditional dbAllOk [⟨"v3", 1234567, "2024-01-01"⟩] rfl).2
      2500000 [] rfl).2 48000 [] rfl).1⟩

end Dashboard




